import Mathlib

/-!
Verification development for the ArkAngel browser assistant.

The repository has three cooperating contexts plus a backend:
* `extension/content.js` — the Extractor, producing a bounded structural
  snapshot of the current document;
* `extension/background.js` — the coordinator owning the current tab's
  context (`currentContext`, `currentTabId`);
* `extension/sidepanel.js` (mirrored by `client/src/pages/extension-panel.tsx`)
  — the Panel Controller with question submission and bounded history;
* the Express backend (`server/routes.ts`) with `/api/ask`, the OpenAI call
  and the deterministic rule-based fallback `generateContextualAnswer`.

Everything below is a shallow embedding of that code: JavaScript string
primitives are modelled by executable char-list functions, DOM inputs by
explicit lists, timestamps and remote calls by parameters.
-/

namespace ArkAngel

/-! ### Models of the JavaScript string primitives -/

/-- Model of JS `String.prototype.includes` helper: does `pat` occur at the
head of `l`? -/
def leadMatch : List Char → List Char → Bool
  | [], _ => true
  | _ :: _, [] => false
  | a :: as, b :: bs => a == b && leadMatch as bs

/-- Does `pat` occur anywhere inside `l`? -/
def hasSub (pat : List Char) : List Char → Bool
  | [] => leadMatch pat []
  | b :: bs => leadMatch pat (b :: bs) || hasSub pat bs

/-- Model of JS `s.includes(pat)`. -/
def jsIncludes (s pat : String) : Bool :=
  hasSub pat.data s.data

/-- Model of JS `s.toLowerCase()` (ASCII case folding, which is all the
source's keyword matching relies on). -/
def jsToLower (s : String) : String :=
  String.mk (s.data.map Char.toLower)

/-- Model of JS `s.trim()`: strip whitespace from both ends. -/
def jsTrim (s : String) : String :=
  String.mk (((s.data.dropWhile Char.isWhitespace).reverse.dropWhile
    Char.isWhitespace).reverse)

/-- Model of JS `s.slice(0, n)`. -/
def jsSlice (s : String) (n : Nat) : String :=
  String.mk (s.data.take n)

/-- Model of JS `a || b` on strings (empty string is falsy). -/
def jsOr (a b : String) : String :=
  if a = "" then b else a

/-! ### Data model (the extracted page context)

Shapes follow the `PageContext` interface of `server/routes.ts` and the
objects built by `content.js`. -/

structure Heading where
  level : Nat
  text : String
deriving DecidableEq, Repr

structure Action where
  text : String
  type : String
  href : Option String := none
deriving DecidableEq, Repr

structure FormInput where
  type : String
  name : String
  placeholder : String
  required : Bool
deriving DecidableEq, Repr

structure Form where
  action : String
  method : String
  inputs : List FormInput
deriving DecidableEq, Repr

structure PageContext where
  title : String
  url : String
  meta_description : String
  headings : List Heading
  actions : List Action
  forms : List Form
  selected_text : String
deriving DecidableEq, Repr

/-! ### Backend: `server/routes.ts` -/

/-- `getPageType` from `server/routes.ts`: fixed lookup order over URL and
title substrings, then heading vocabulary, defaulting to "a web page". -/
def getPageType (context : PageContext) : String :=
  let title := jsToLower context.title
  let url := jsToLower context.url
  let headings := context.headings
  if jsIncludes url "docs" || jsIncludes url "documentation" then
    "a documentation page"
  else if jsIncludes url "api" then "an API reference page"
  else if jsIncludes url "blog" || jsIncludes url "article" then
    "a blog post or article"
  else if jsIncludes url "shop" || jsIncludes url "store" || jsIncludes url "buy" then
    "an e-commerce page"
  else if jsIncludes url "login" || jsIncludes url "signup" then
    "a login or registration page"
  else if jsIncludes title "home" || url == "/" || jsIncludes url "index" then
    "a homepage"
  else
    let headingText := String.intercalate " " (headings.map fun h => jsToLower h.text)
    if jsIncludes headingText "tutorial" || jsIncludes headingText "guide" then
      "a tutorial or guide"
    else if jsIncludes headingText "about" then "an about page"
    else if jsIncludes headingText "contact" then "a contact page"
    else "a web page"

/-- `analyzeSelectedText` from `server/routes.ts` (its `context` argument is
unused by the source as well). -/
def analyzeSelectedText (text : String) (_context : PageContext) : String :=
  if text.length < 10 then "a short phrase or keyword"
  else if text.length > 200 then "a longer passage of text"
  else if jsIncludes text "API" || jsIncludes text "function" || jsIncludes text "code" then
    "technical content related to programming or APIs"
  else if jsIncludes text "$" || jsIncludes text "price" || jsIncludes text "cost" then
    "pricing or cost information"
  else "important content you highlighted"

/-- The Fallback Answerer: `generateContextualAnswer` from
`server/routes.ts`. An if/else-if chain over keyword classes of the
lower-cased question, each branch a template over the snapshot fields. -/
def generateContextualAnswer (question : String) (context : PageContext) : String :=
  let questionLower := jsToLower question
  let title := context.title
  let url := context.url
  let headings := context.headings
  let actions := context.actions
  let selectedText := context.selected_text
  let metaDescription := context.meta_description
  if jsIncludes questionLower "what" && jsIncludes questionLower "page" then
    "This page is titled \"" ++ title ++ "\" and appears to be " ++
      getPageType context ++ ". " ++
      (if metaDescription != "" then
        "The page description states: \"" ++ metaDescription ++ "\". " else "") ++
      "It contains " ++ toString headings.length ++ " main headings and " ++
      toString actions.length ++ " interactive elements like buttons and links."
  else if jsIncludes questionLower "title" then
    "The page title is \"" ++ title ++
      "\". This gives us insight into the main topic or purpose of the page."
  else if jsIncludes questionLower "url" || jsIncludes questionLower "link" then
    "The current page URL is: " ++ url ++ ". " ++
      (if actions.length > 0 then
        "The page also contains " ++ toString actions.length ++
          " clickable elements including buttons and links." else "")
  else if jsIncludes questionLower "heading" || jsIncludes questionLower "section" then
    if headings.length > 0 then
      let headingText := String.intercalate ", "
        ((headings.take 5).map fun h => "\"" ++ h.text ++ "\"")
      "The page has " ++ toString headings.length ++
        " main headings. The first few are: " ++ headingText ++
        ". These headings help organize the content into different sections."
    else
      "This page doesn\x27t appear to have clear section headings, which might indicate it\x27s a simple page or uses a different content structure."
  else if jsIncludes questionLower "button" || jsIncludes questionLower "click" ||
      jsIncludes questionLower "action" then
    if actions.length > 0 then
      let buttonActions := (actions.filter fun a => a.type == "button").take 3
      let linkActions := (actions.filter fun a => a.type == "link").take 3
      "The page has " ++ toString actions.length ++ " interactive elements. " ++
        (if buttonActions.length > 0 then
          "Buttons include: " ++
            String.intercalate ", " (buttonActions.map fun a => "\"" ++ a.text ++ "\"") ++
            ". " else "") ++
        (if linkActions.length > 0 then
          "Links include: " ++
            String.intercalate ", " (linkActions.map fun a => "\"" ++ a.text ++ "\"") ++
            "." else "")
    else
      "This page doesn\x27t appear to have many interactive buttons or clickable elements. It might be primarily informational content."
  else if selectedText != "" &&
      (jsIncludes questionLower "selected" || jsIncludes questionLower "highlight") then
    "You have selected the text: \"" ++ selectedText ++ "\". This appears to be " ++
      analyzeSelectedText selectedText context ++
      ". Would you like me to explain this content in more detail?"
  else if jsIncludes questionLower "summary" || jsIncludes questionLower "about" then
    "Based on the page context, this appears to be " ++ getPageType context ++
      " titled \"" ++ title ++ "\". " ++
      (jsOr metaDescription
        "The page contains organized content with multiple sections and interactive elements.") ++
      " " ++
      (if headings.length > 0 then
        "The main topics covered include sections on " ++
          String.intercalate ", " ((headings.take 3).map fun h => jsToLower h.text) ++
          "." else "")
  else if jsIncludes questionLower "help" || jsIncludes questionLower "how" then
    let helpfulActions := actions.filter fun a =>
      jsIncludes (jsToLower a.text) "help" ||
      jsIncludes (jsToLower a.text) "support" ||
      jsIncludes (jsToLower a.text) "guide" ||
      jsIncludes (jsToLower a.text) "tutorial"
    if actions.length > 0 && helpfulActions.length > 0 then
      "For help with this page, you can try clicking on: " ++
        String.intercalate ", " (helpfulActions.map fun a => "\"" ++ a.text ++ "\"") ++
        ". The page also has " ++ toString actions.length ++
        " total interactive elements that might provide additional assistance."
    else
      "To get help with this page content, look for sections titled " ++
        (jsOr (String.intercalate ", "
          (((headings.filter fun h =>
              jsIncludes (jsToLower h.text) "help" ||
              jsIncludes (jsToLower h.text) "guide").map
            fun h => "\"" ++ h.text ++ "\"")))
          "help or support") ++
        ". " ++
        (if actions.length > 0 then
          "You can also try the " ++ toString actions.length ++
            " interactive elements on the page." else "")
  else
    "Based on the page \"" ++ title ++ "\", I can see " ++
      toString headings.length ++ " main sections and " ++
      toString actions.length ++ " interactive elements. " ++
      (if selectedText != "" then
        "You\x27ve selected: \"" ++ selectedText ++ "\". " else "") ++
      "Could you be more specific about what you\x27d like to know about this page? I can help explain the content, navigation options, or specific sections."

/-- Result of `analyzePageContext` from `server/routes.ts`. -/
structure PageAnalysis where
  pageType : String
  complexity : String
  interactivity : String
  hasSelectedContent : Bool
  contentStructure : Nat × Nat × Nat
deriving DecidableEq, Repr

/-- `analyzePageContext` from `server/routes.ts`: classifier thresholds as
written in the source (`> 5` / `> 2` on headings, `> 10` / `> 3` on
actions). -/
def analyzePageContext (context : PageContext) : PageAnalysis :=
  { pageType := getPageType context
    complexity :=
      if context.headings.length > 5 then "high"
      else if context.headings.length > 2 then "medium"
      else "low"
    interactivity :=
      if context.actions.length > 10 then "high"
      else if context.actions.length > 3 then "medium"
      else "low"
    hasSelectedContent := context.selected_text != ""
    contentStructure :=
      (context.headings.length, context.actions.length, context.forms.length) }

/-- Outcome of the remote OpenAI call inside `generateAIResponse`:
`failure` covers everything that makes the awaited call throw (network
error, timeout, non-2xx status, malformed body); `success content` is a
well-formed response whose message content may still be null. -/
inductive RemoteOutcome where
  | failure
  | success (content : Option String)
deriving DecidableEq, Repr

/-- `generateAIResponse` from `server/routes.ts`: returns the remote
content when the call succeeds (with a canned default for null/empty
content) and falls back to `generateContextualAnswer` on the same
`(question, context)` when the call throws. -/
def generateAIResponse (remote : RemoteOutcome) (question : String)
    (context : PageContext) : String :=
  match remote with
  | .success content =>
      jsOr (content.getD "") "I couldn\x27t generate a response. Please try again."
  | .failure => generateContextualAnswer question context

/-- The `/api/ask` handler from `server/routes.ts`, as a function of the
request body (`question`, `context`) and the remote outcome; returns the
HTTP status and the answer (or error) string. -/
def apiAsk (remote : RemoteOutcome) (question : Option String)
    (context : Option PageContext) : Nat × String :=
  let q := question.getD ""
  if q = "" || jsTrim q = "" then (400, "Question is required")
  else
    match context with
    | none => (400, "Context is required")
    | some c => (200, generateAIResponse remote q c)

/-! ### Panel Controller: `extension/sidepanel.js`

`SidePanelApp.submitQuestion` as a state transition. The `fetch` to
`/api/ask` is modelled by a `FetchResult` parameter and `new
Date().toISOString()` by a `now` parameter. The returned `Bool` records
whether the fetch was issued (the dispatch). -/

structure ConversationItem where
  question : String
  answer : String
  timestamp : String
deriving DecidableEq, Repr

structure PanelState where
  pageContext : Option PageContext
  question : String
  answer : Option String
  isLoading : Bool
  isJsonExpanded : Bool
  connectionStatus : String
  error : Option String
  conversationHistory : List ConversationItem
deriving DecidableEq, Repr

inductive FetchResult where
  | ok (answer : String)
  | err
deriving DecidableEq, Repr

/-- `SidePanelApp.submitQuestion`: early-returns when the trimmed question
is empty or no page context is known; otherwise performs the fetch and, on
success, prepends the new conversation item onto the first nine old ones.
First component: whether the fetch was performed. -/
def submitQuestion (now : String) (remote : FetchResult) (s : PanelState) :
    Bool × PanelState :=
  if jsTrim s.question == "" || s.pageContext.isNone then (false, s)
  else
    let s1 := { s with isLoading := true, error := none }
    match remote with
    | .ok ans =>
        (true, { s1 with
          answer := some ans
          question := ""
          isLoading := false
          conversationHistory :=
            ⟨s.question, ans, now⟩ :: s.conversationHistory.take 9 })
    | .err =>
        (true, { s1 with
          isLoading := false
          error := some "Failed to get response from backend. Please check if the server is running." })

/-- User events that can reach `submitQuestion` (from `bindEvents`). -/
inductive PanelEvent where
  | clickSubmit
  | ctrlEnter
deriving DecidableEq, Repr

/-- The submit button's `disabled` attribute, from the `render` template:
`!this.state.question.trim() || this.state.isLoading`. -/
def submitDisabled (s : PanelState) : Bool :=
  jsTrim s.question == "" || s.isLoading

/-- Event dispatch of `bindEvents`: a click on a disabled button never
fires (DOM semantics), so the click path is guarded by `submitDisabled`;
the Ctrl+Enter keydown handler calls `submitQuestion()` unconditionally. -/
def handlePanelEvent (now : String) (remote : FetchResult) (e : PanelEvent)
    (s : PanelState) : Bool × PanelState :=
  match e with
  | .clickSubmit =>
      if submitDisabled s then (false, s) else submitQuestion now remote s
  | .ctrlEnter => submitQuestion now remote s

/-- Repeated type-a-question-then-submit interactions: each step sets the
question field (the `input` handler) and then submits with a successful
remote answer at the given timestamp. -/
def submitMany (steps : List (String × String × String)) (s : PanelState) :
    PanelState :=
  steps.foldl
    (fun st step =>
      (submitQuestion step.2.2 (.ok step.2.1) { st with question := step.1 }).2)
    s

/-! ### Coordinator: `extension/background.js`

State is the pair of module-level variables `currentContext` /
`currentTabId`; message senders carry an optional `sender.tab`. -/

structure TabInfo where
  id : Nat
  url : String
deriving DecidableEq, Repr

/-- What `handleContextExtracted` stores: the extracted context spread
together with `tabId` and `tabUrl`. -/
structure StoredContext where
  context : PageContext
  tabId : Nat
  tabUrl : String
deriving DecidableEq, Repr

structure BgState where
  currentContext : Option StoredContext
  currentTabId : Option Nat
deriving DecidableEq, Repr

/-- `chrome.tabs.onActivated` listener: records the new tab id and clears
the current context. -/
def onTabActivated (tabId : Nat) (_s : BgState) : BgState :=
  { currentTabId := some tabId, currentContext := none }

/-- `chrome.tabs.onUpdated` listener: on a completed navigation in the
active tab, records the tab id and clears the current context; otherwise
leaves the state alone. -/
def onTabUpdated (tabId : Nat) (statusComplete : Bool) (active : Bool)
    (s : BgState) : BgState :=
  if statusComplete && active then
    { currentTabId := some tabId, currentContext := none }
  else s

/-- `handleContextExtracted`: accepts an extraction result only when the
message has a sender tab whose id equals `currentTabId`. -/
def handleContextExtracted (sender : Option TabInfo) (reqContext : PageContext)
    (s : BgState) : BgState :=
  match sender with
  | some tab =>
      if some tab.id == s.currentTabId then
        { s with currentContext := some ⟨reqContext, tab.id, tab.url⟩ }
      else s
  | none => s

/-- `handleSelectionChanged`: patches `selected_text` in place when the
sender tab matches and a context is present. -/
def handleSelectionChanged (sender : Option TabInfo) (selectedText : String)
    (s : BgState) : BgState :=
  match sender with
  | some tab =>
      if some tab.id == s.currentTabId then
        match s.currentContext with
        | some sc =>
            let patched := { sc.context with selected_text := selectedText }
            { s with currentContext := some { sc with context := patched } }
        | none => s
      else s
  | none => s

/-! ### Extractor: `extension/content.js` and the inline copy in
`extension/background.js`

The DOM is abstracted as explicit element lists in document order;
`document.querySelectorAll` results become those lists. -/

structure DomHeading where
  level : Nat
  textContent : String
deriving DecidableEq, Repr

structure DomAction where
  textContent : String
  value : String
  ariaLabel : String
  tagName : String
  type : String
  href : Option String
deriving DecidableEq, Repr

structure DomInput where
  type : String
  tagName : String
  name : String
  placeholder : String
  required : Bool
deriving DecidableEq, Repr

structure DomForm where
  action : String
  method : String
  inputs : List DomInput
deriving DecidableEq, Repr

structure Dom where
  title : String
  url : String
  metaDescription : String
  headings : List DomHeading
  actionEls : List DomAction
  forms : List DomForm
  selection : String
  paragraphs : List String
deriving DecidableEq, Repr

/-- Snapshot produced by `content.js`'s `extractPageContext`. -/
structure Snapshot where
  title : String
  url : String
  meta_description : String
  headings : List Heading
  actions : List Action
  forms : List Form
  selected_text : String
  paragraphs : List String
  extracted_at : String
  extraction_time : Nat
deriving DecidableEq, Repr

/-- `extractPageContext` from `extension/content.js`: slice to the caps
first, then map/trim, then filter out empty or out-of-bound text. -/
def extractPageContext (dom : Dom) (now : String) (dur : Nat) : Snapshot :=
  { title := dom.title
    url := dom.url
    meta_description := dom.metaDescription
    headings :=
      (((dom.headings.take 10).map fun h =>
          ({ level := h.level, text := jsTrim h.textContent } : Heading)).filter
        fun h => h.text.length > 0 && h.text.length < 200)
    actions :=
      (((dom.actionEls.take 20).map fun el =>
          let text := jsTrim (jsOr el.textContent (jsOr el.value el.ariaLabel))
          ({ text := jsSlice text 50
             type :=
               if el.tagName == "button" || el.type == "button" || el.type == "submit"
               then "button" else "link"
             href := el.href } : Action)).filter
        fun a => a.text.length > 0 && a.text.length > 2)
    forms :=
      ((dom.forms.take 5).map fun f =>
        ({ action := jsOr f.action dom.url
           method := jsOr f.method "GET"
           inputs := f.inputs.map fun i =>
             ({ type := jsOr i.type i.tagName
                name := i.name
                placeholder := i.placeholder
                required := i.required } : FormInput) } : Form))
    selected_text := jsTrim dom.selection
    paragraphs :=
      (((dom.paragraphs.take 5).map jsTrim).filter
        fun t => t.length > 20 && t.length < 500)
    extracted_at := now
    extraction_time := dur }

/-- Form shape of the inline extractor in `background.js` (inputs are bare
type strings there). -/
structure BgForm where
  action : String
  method : String
  inputs : List String
deriving DecidableEq, Repr

/-- Snapshot produced by the inline `extractPageContext` inside
`background.js`'s `extractContextFromTab`. -/
structure BgSnapshot where
  title : String
  url : String
  meta_description : String
  headings : List Heading
  actions : List Action
  forms : List BgForm
  selected_text : String
  extracted_at : String
deriving DecidableEq, Repr

/-- The inline `extractPageContext` of `background.js`: same slice-then-
filter shape, with a plain non-empty-text filter and no `href`/`value`
handling. -/
def bgExtractPageContext (dom : Dom) (now : String) : BgSnapshot :=
  { title := dom.title
    url := dom.url
    meta_description := dom.metaDescription
    headings :=
      (((dom.headings.take 10).map fun h =>
          ({ level := h.level, text := jsTrim h.textContent } : Heading)).filter
        fun h => h.text.length > 0)
    actions :=
      (((dom.actionEls.take 20).map fun el =>
          ({ text := jsSlice (jsTrim (jsOr el.textContent el.ariaLabel)) 50
             type := if el.tagName == "button" then "button" else "link"
             href := none } : Action)).filter
        fun a => a.text.length > 0)
    forms :=
      ((dom.forms.take 5).map fun f =>
        ({ action := jsOr f.action dom.url
           method := jsOr f.method "GET"
           inputs := f.inputs.map fun i => jsOr i.type i.tagName } : BgForm))
    selected_text := jsTrim dom.selection
    extracted_at := now }

/-! ### Concrete states used in counterexamples and witnesses -/

/-- A snapshot of an empty document: every field empty. -/
def emptyPageContext : PageContext :=
  { title := "", url := "", meta_description := "", headings := [], actions := []
    forms := [], selected_text := "" }

/-- A snapshot with exactly three interactive elements. -/
def snapThreeActions : PageContext :=
  { emptyPageContext with
    actions := [⟨"Sign Up", "button", none⟩, ⟨"Log In", "button", none⟩,
                ⟨"Docs", "link", none⟩] }

/-- A late extraction result captured on the pre-navigation document. -/
def staleCtx : PageContext :=
  { emptyPageContext with title := "Stale result", url := "https://old.example/" }

/-- Context stored for tab 1 before the navigation. -/
def oldStored : StoredContext :=
  ⟨emptyPageContext, 1, "https://old.example/"⟩

/-- Coordinator state while tab 1 shows the old document and an extraction
is in flight. -/
def preNav : BgState := ⟨some oldStored, some 1⟩

/-- Coordinator state right after the navigation in tab 1 completes. -/
def afterNav : BgState := onTabUpdated 1 true true preNav

/-- A freshly initialised panel with a known page context. -/
def basePanel : PanelState :=
  { pageContext := some emptyPageContext, question := "", answer := none
    isLoading := false, isJsonExpanded := false, connectionStatus := "connected"
    error := none, conversationHistory := [] }

/-- Panel whose question field holds only whitespace. -/
def wsPanel : PanelState := { basePanel with question := "   " }

/-- Panel with a nonempty question while a submission is outstanding. -/
def busyPanel : PanelState :=
  { basePanel with question := "What is this?", isLoading := true }

/-- Panel about to submit its first question. -/
def q1Panel : PanelState := { basePanel with question := "q1" }

/-- Eleven successive (question, answer, timestamp) submissions. -/
def elevenSteps : List (String × String × String) :=
  [("q1", "a1", "t1"), ("q2", "a2", "t2"), ("q3", "a3", "t3"),
   ("q4", "a4", "t4"), ("q5", "a5", "t5"), ("q6", "a6", "t6"),
   ("q7", "a7", "t7"), ("q8", "a8", "t8"), ("q9", "a9", "t9"),
   ("q10", "a10", "t10"), ("q11", "a11", "t11")]

/-- A document with eleven heading elements — the first has empty text, the
eleventh has the text "Eleventh" — and one link. -/
def exDom11 : Dom :=
  { title := "T", url := "https://example.com/", metaDescription := ""
    headings :=
      [⟨1, ""⟩, ⟨2, "A2"⟩, ⟨2, "A3"⟩, ⟨2, "A4"⟩, ⟨2, "A5"⟩, ⟨2, "A6"⟩,
       ⟨2, "A7"⟩, ⟨2, "A8"⟩, ⟨2, "A9"⟩, ⟨2, "A10"⟩, ⟨2, "Eleventh"⟩]
    actionEls :=
      [{ textContent := "Click me here", value := "", ariaLabel := ""
         tagName := "a", type := "", href := some "https://example.com/x" }]
    forms := [], selection := "", paragraphs := [] }

/-! ### Theorems -/

/-- A string of positive length is not the empty string. -/
theorem ne_empty_of_len_pos {s : String} (h : 0 < s.length) : s ≠ "" := by
  intro he
  subst he
  exact absurd h (by decide)

/-- Appending on the right preserves positive length. -/
theorem len_pos_append_left (s t : String) (h : 0 < s.length) :
    0 < (s ++ t).length := by
  rw [String.length_append]
  omega

/-- Claim C3: every snapshot produced by the Extractor — both the
`content.js` `extractPageContext` and the inline copy in `background.js` —
has at most 10 headings, at most 20 actions and at most 5 forms, and none
of its heading or action entries has empty text. -/
theorem c3_extractor_bounds : ∀ (dom : Dom) (now : String) (dur : Nat),
    (extractPageContext dom now dur).headings.length ≤ 10 ∧
    (extractPageContext dom now dur).actions.length ≤ 20 ∧
    (extractPageContext dom now dur).forms.length ≤ 5 ∧
    (∀ h ∈ (extractPageContext dom now dur).headings, h.text ≠ "") ∧
    (∀ a ∈ (extractPageContext dom now dur).actions, a.text ≠ "") ∧
    (bgExtractPageContext dom now).headings.length ≤ 10 ∧
    (bgExtractPageContext dom now).actions.length ≤ 20 ∧
    (bgExtractPageContext dom now).forms.length ≤ 5 ∧
    (∀ h ∈ (bgExtractPageContext dom now).headings, h.text ≠ "") ∧
    (∀ a ∈ (bgExtractPageContext dom now).actions, a.text ≠ "") := by
  intro dom now dur
  refine ⟨?_, ?_, ?_, ?_, ?_, ?_, ?_, ?_, ?_, ?_⟩
  · simp only [extractPageContext]
    exact le_trans (List.length_filter_le _ _)
      (by simp [List.length_take])
  · simp only [extractPageContext]
    exact le_trans (List.length_filter_le _ _)
      (by simp [List.length_take])
  · simp only [extractPageContext]
    simp [List.length_take]
  · intro h hmem
    simp only [extractPageContext, List.mem_filter, Bool.and_eq_true,
      decide_eq_true_eq] at hmem
    exact ne_empty_of_len_pos hmem.2.1
  · intro a hmem
    simp only [extractPageContext, List.mem_filter, Bool.and_eq_true,
      decide_eq_true_eq] at hmem
    exact ne_empty_of_len_pos hmem.2.1
  · simp only [bgExtractPageContext]
    exact le_trans (List.length_filter_le _ _)
      (by simp [List.length_take])
  · simp only [bgExtractPageContext]
    exact le_trans (List.length_filter_le _ _)
      (by simp [List.length_take])
  · simp only [bgExtractPageContext]
    simp [List.length_take]
  · intro h hmem
    simp only [bgExtractPageContext, List.mem_filter,
      decide_eq_true_eq] at hmem
    exact ne_empty_of_len_pos hmem.2
  · intro a hmem
    simp only [bgExtractPageContext, List.mem_filter,
      decide_eq_true_eq] at hmem
    exact ne_empty_of_len_pos hmem.2

/-- Witness for C3: the extraction of `exDom11` contains the heading
`⟨2, "A2"⟩` and the action `"Click me here"`, and their texts are
nonempty. -/
theorem c3_extractor_bounds_witness :
    ((⟨2, "A2"⟩ : Heading) ∈ (extractPageContext exDom11 "t" 0).headings ∧
      (⟨2, "A2"⟩ : Heading).text ≠ "") ∧
    ((⟨"Click me here", "link", some "https://example.com/x"⟩ : Action) ∈
        (extractPageContext exDom11 "t" 0).actions ∧
      (⟨"Click me here", "link", some "https://example.com/x"⟩ : Action).text ≠ "") :=
  ⟨⟨by decide, (c3_extractor_bounds exDom11 "t" 0).2.2.2.1 ⟨2, "A2"⟩ (by decide)⟩,
   ⟨by decide, (c3_extractor_bounds exDom11 "t" 0).2.2.2.2.1
      ⟨"Click me here", "link", some "https://example.com/x"⟩ (by decide)⟩⟩

/-- Claim C10: the Extractor slices to the numeric caps before filtering:
the snapshot's headings and actions depend only on the first 10 heading
elements and the first 20 action candidates of the document; concretely,
for `exDom11` (eleven heading elements, the first empty-text, the eleventh
"Eleventh") only nine headings survive and "Eleventh" is not among them. -/
theorem c10_slice_before_filter : ∀ (dom : Dom) (now : String) (dur : Nat),
    ((extractPageContext dom now dur).headings =
      (extractPageContext { dom with headings := dom.headings.take 10 } now dur).headings) ∧
    ((extractPageContext dom now dur).actions =
      (extractPageContext { dom with actionEls := dom.actionEls.take 20 } now dur).actions) ∧
    ((extractPageContext exDom11 "t" 0).headings.length = 9 ∧
      ((extractPageContext exDom11 "t" 0).headings.all
        fun h => h.text != "Eleventh") = true) := by
  intro dom now dur
  refine ⟨?_, ?_, by decide, by decide⟩
  · simp [extractPageContext, List.take_take]
  · simp [extractPageContext, List.take_take]

/-- Counterexample to claim C8 as stated: the claim puts a snapshot with
exactly 3 actions in the "medium" interactivity band (low only below 3),
but `analyzePageContext` classifies 3 actions as "low" (its test is
`> 3`, not `≥ 3`). -/
theorem c8_counterexample :
    ¬ (∀ c : PageContext, 3 ≤ c.actions.length → c.actions.length ≤ 10 →
        (analyzePageContext c).interactivity = "medium") := by
  intro hcl
  have h := hcl snapThreeActions (by decide) (by decide)
  exact absurd h (by decide)

/-- Claim C8 (amended): the classifier returns complexity "low" for
heading count < 3, "medium" for 3..5, "high" for ≥ 6; and interactivity
"low" for action count < 4 (i.e. ≤ 3, the source tests `> 3`), "medium"
for 4..10, "high" for > 10. -/
theorem c8_amended : ∀ c : PageContext,
    ((analyzePageContext c).complexity = "low" ↔ c.headings.length < 3) ∧
    ((analyzePageContext c).complexity = "medium" ↔
      3 ≤ c.headings.length ∧ c.headings.length < 6) ∧
    ((analyzePageContext c).complexity = "high" ↔ 6 ≤ c.headings.length) ∧
    ((analyzePageContext c).interactivity = "low" ↔ c.actions.length < 4) ∧
    ((analyzePageContext c).interactivity = "medium" ↔
      4 ≤ c.actions.length ∧ c.actions.length ≤ 10) ∧
    ((analyzePageContext c).interactivity = "high" ↔ 11 ≤ c.actions.length) := by
  intro c
  simp only [analyzePageContext]
  refine ⟨?_, ?_, ?_, ?_, ?_, ?_⟩ <;>
    split_ifs with h1 h2 <;>
    first
      | exact iff_of_true rfl (by omega)
      | exact iff_of_false (by decide) (by omega)

/-- Claim C5: a submit whose question is empty or whitespace-only performs
no dispatch (the fetch is never issued) and leaves the whole panel state —
in particular the conversation history — unchanged, whatever the rest of
the state and the remote outcome. -/
theorem c5_empty_question_no_dispatch :
    ∀ (now : String) (remote : FetchResult) (s : PanelState),
    jsTrim s.question = "" →
    (submitQuestion now remote s).1 = false ∧
    (submitQuestion now remote s).2 = s := by
  intro now remote s h
  simp [submitQuestion, h]

/-- Witness for C5 at a panel whose question is `"   "`. -/
theorem c5_witness :
    jsTrim wsPanel.question = "" ∧
    ((submitQuestion "t0" FetchResult.err wsPanel).1 = false ∧
      (submitQuestion "t0" FetchResult.err wsPanel).2 = wsPanel) :=
  ⟨by decide, c5_empty_question_no_dispatch "t0" FetchResult.err wsPanel (by decide)⟩

/-- Claim C2: when the remote model call fails, the `/api/ask` dispatch
returns HTTP 200 with exactly the Fallback Answerer's string for the
identical query — the failure is never surfaced as an error. -/
theorem c2_dispatch_fallback : ∀ (q : String) (c : PageContext),
    jsTrim q ≠ "" →
    apiAsk RemoteOutcome.failure (some q) (some c) =
      (200, generateContextualAnswer q c) := by
  intro q c h
  have h0 : q ≠ "" := by
    intro he
    exact h (by rw [he]; decide)
  simp [apiAsk, h, h0, generateAIResponse]

/-- Witness for C2 at a concrete query against the empty snapshot. -/
theorem c2_witness :
    jsTrim "Where am I?" ≠ "" ∧
    apiAsk RemoteOutcome.failure (some "Where am I?") (some emptyPageContext) =
      (200, generateContextualAnswer "Where am I?" emptyPageContext) :=
  ⟨by decide, c2_dispatch_fallback "Where am I?" emptyPageContext (by decide)⟩

/-- Claim C6: the conversation history never exceeds 10 entries; a
successful submission prepends its entry at the front; and after the
eleven successful submissions of `elevenSteps` from a fresh panel, the
history holds 10 entries whose first element is the 11th submission while
the 1st has been evicted. -/
theorem c6_history_bounded :
    (∀ (now : String) (remote : FetchResult) (s : PanelState),
      s.conversationHistory.length ≤ 10 →
      ((submitQuestion now remote s).2).conversationHistory.length ≤ 10) ∧
    (∀ (now ans : String) (s : PanelState),
      jsTrim s.question ≠ "" → s.pageContext.isSome = true →
      ((submitQuestion now (FetchResult.ok ans) s).2).conversationHistory.head? =
        some ⟨s.question, ans, now⟩) ∧
    ((submitMany elevenSteps basePanel).conversationHistory.length = 10 ∧
      (submitMany elevenSteps basePanel).conversationHistory.head? =
        some ⟨"q11", "a11", "t11"⟩ ∧
      ((submitMany elevenSteps basePanel).conversationHistory.all
        fun e => e.question != "q1") = true) := by
  refine ⟨?_, ?_, by decide, by decide, by decide⟩
  · intro now remote s hlen
    cases remote with
    | ok ans =>
        simp only [submitQuestion]
        split
        · exact hlen
        · simp [List.length_take]
    | err =>
        simp only [submitQuestion]
        split
        · exact hlen
        · exact hlen
  · intro now ans s hq hc
    have h1 : (jsTrim s.question == "") = false := by
      simpa using hq
    have h2 : s.pageContext.isNone = false := by
      obtain ⟨v, hv⟩ := Option.isSome_iff_exists.mp hc
      rw [hv]
      rfl
    simp [submitQuestion, h1, h2]

/-- Witness for C6 at the concrete panel `q1Panel`. -/
theorem c6_witness :
    (q1Panel.conversationHistory.length ≤ 10 ∧
      ((submitQuestion "t1" (FetchResult.ok "a1") q1Panel).2).conversationHistory.length ≤ 10) ∧
    (jsTrim q1Panel.question ≠ "" ∧ q1Panel.pageContext.isSome = true ∧
      ((submitQuestion "t1" (FetchResult.ok "a1") q1Panel).2).conversationHistory.head? =
        some ⟨q1Panel.question, "a1", "t1"⟩) :=
  ⟨⟨by decide, c6_history_bounded.1 "t1" (FetchResult.ok "a1") q1Panel (by decide)⟩,
   ⟨by decide, by decide,
    c6_history_bounded.2.1 "t1" "a1" q1Panel (by decide) (by decide)⟩⟩

/-- Counterexample to claim C7 as stated: at `busyPanel` (loading flag
set, nonempty question, context present) a Ctrl+Enter keyboard event
reaches `submitQuestion`, which performs the dispatch and changes the
state — the keydown handler and `submitQuestion` itself never consult
`isLoading`. -/
theorem c7_counterexample :
    busyPanel.isLoading = true ∧
    (handlePanelEvent "t" (FetchResult.ok "ans") PanelEvent.ctrlEnter busyPanel).1 = true ∧
    (handlePanelEvent "t" (FetchResult.ok "ans") PanelEvent.ctrlEnter busyPanel).2 ≠ busyPanel :=
  ⟨rfl, by decide, by decide⟩

/-- Claim C7 (amended): while a submission is outstanding, a button click
performs no dispatch and no state change (the submit button is rendered
disabled while `isLoading`), but the Ctrl+Enter keyboard path has no
loading guard: with a nonempty question and a known context it dispatches
again. -/
theorem c7_amended : ∀ (now : String) (remote : FetchResult) (s : PanelState),
    (s.isLoading = true →
      handlePanelEvent now remote PanelEvent.clickSubmit s = (false, s)) ∧
    (s.isLoading = true → jsTrim s.question ≠ "" → s.pageContext.isSome = true →
      (handlePanelEvent now remote PanelEvent.ctrlEnter s).1 = true) := by
  intro now remote s
  constructor
  · intro hl
    simp [handlePanelEvent, submitDisabled, hl]
  · intro _ hq hc
    have h1 : (jsTrim s.question == "") = false := by
      simpa using hq
    have h2 : s.pageContext.isNone = false := by
      obtain ⟨v, hv⟩ := Option.isSome_iff_exists.mp hc
      rw [hv]
      rfl
    cases remote <;> simp [handlePanelEvent, submitQuestion, h1, h2]

/-- Witness for C7 (amended) at `busyPanel`. -/
theorem c7_witness :
    (busyPanel.isLoading = true ∧
      handlePanelEvent "t" FetchResult.err PanelEvent.clickSubmit busyPanel =
        (false, busyPanel)) ∧
    (jsTrim busyPanel.question ≠ "" ∧ busyPanel.pageContext.isSome = true ∧
      (handlePanelEvent "t" FetchResult.err PanelEvent.ctrlEnter busyPanel).1 = true) :=
  ⟨⟨rfl, (c7_amended "t" FetchResult.err busyPanel).1 rfl⟩,
   ⟨by decide, by decide,
    (c7_amended "t" FetchResult.err busyPanel).2 rfl (by decide) (by decide)⟩⟩

/-- Counterexample to claim C1 as stated: the coordinator keeps no
generation counter — only the sender tab id is compared. Starting from
`preNav` (tab 1 showing the old document, an extraction in flight), the
navigation in tab 1 completes and invalidates the stored context; the
stale result `staleCtx`, captured on the pre-navigation document, then
arrives from tab 1 and is accepted, mutating the stored snapshot. -/
theorem c1_counterexample :
    afterNav.currentContext = none ∧
    (handleContextExtracted (some ⟨1, "https://old.example/"⟩) staleCtx
        afterNav).currentContext = some ⟨staleCtx, 1, "https://old.example/"⟩ ∧
    (handleContextExtracted (some ⟨1, "https://old.example/"⟩) staleCtx
        afterNav).currentContext ≠ afterNav.currentContext :=
  ⟨by decide, by decide, by decide⟩

/-- Claim C1 (amended): staleness is decided by tab identity alone. An
extraction result whose sender tab differs from `currentTabId` (the
tab-switch case, and any message without a sender tab) never mutates the
coordinator state; the stored context is only ever set by a result whose
sender tab id equals `currentTabId`; and after a tab switch, a stale
result from the previous tab leaves the cleared snapshot absent. A stale
result from the *same* tab after a navigation completion is accepted
(`c1_counterexample`). -/
theorem c1_amended : ∀ (s : BgState) (sender : Option TabInfo) (ctx : PageContext),
    ((∀ tab : TabInfo, sender = some tab → some tab.id ≠ s.currentTabId) →
      handleContextExtracted sender ctx s = s) ∧
    ((handleContextExtracted sender ctx s).currentContext ≠ s.currentContext →
      ∃ tab, sender = some tab ∧ some tab.id = s.currentTabId) ∧
    (∀ (t tNew : Nat) (u : String), t ≠ tNew →
      (handleContextExtracted (some ⟨t, u⟩) ctx
        (onTabActivated tNew s)).currentContext = none) := by
  intro s sender ctx
  refine ⟨?_, ?_, ?_⟩
  · intro hne
    cases sender with
    | none => rfl
    | some tab =>
        have h := hne tab rfl
        simp [handleContextExtracted, h]
  · intro hch
    cases sender with
    | none => exact absurd rfl hch
    | some tab =>
        by_cases heq : some tab.id = s.currentTabId
        · exact ⟨tab, rfl, heq⟩
        · refine absurd ?_ hch
          simp [handleContextExtracted, heq]
  · intro t tNew u hne
    simp [handleContextExtracted, onTabActivated, hne]

/-- Witness for C1 (amended): tab switch from tab 1 to tab 2, then a stale
result from tab 1 arrives and the snapshot stays absent. -/
theorem c1_witness :
    (1 : Nat) ≠ 2 ∧
    (handleContextExtracted (some ⟨1, "https://old.example/"⟩) staleCtx
      (onTabActivated 2 preNav)).currentContext = none :=
  ⟨by decide,
   (c1_amended preNav (some ⟨1, "https://old.example/"⟩) staleCtx).2.2 1 2
     "https://old.example/" (by decide)⟩

/-- Claim C9: the Fallback Answerer's keyword classes are tried in fixed
order with the first match winning: any question whose lower-cased text
contains both "title" and "heading" but does not match the higher-priority
page-identity class (both "what" and "page") gets exactly the title-class
answer. -/
theorem c9_title_priority : ∀ (q : String) (c : PageContext),
    jsIncludes (jsToLower q) "title" = true →
    jsIncludes (jsToLower q) "heading" = true →
    ¬(jsIncludes (jsToLower q) "what" = true ∧
        jsIncludes (jsToLower q) "page" = true) →
    generateContextualAnswer q c =
      "The page title is \"" ++ c.title ++
        "\". This gives us insight into the main topic or purpose of the page." := by
  intro q c h1 _h2 h3
  have hw : (jsIncludes (jsToLower q) "what" &&
      jsIncludes (jsToLower q) "page") = false := by
    cases hwq : jsIncludes (jsToLower q) "what" <;>
      cases hpq : jsIncludes (jsToLower q) "page" <;> simp_all
  simp [generateContextualAnswer, hw, h1]

/-- Witness for C9: the question "title heading" contains both tokens and
not the page-identity pair, and resolves to the title-class answer. -/
theorem c9_witness :
    jsIncludes (jsToLower "title heading") "title" = true ∧
    jsIncludes (jsToLower "title heading") "heading" = true ∧
    ¬(jsIncludes (jsToLower "title heading") "what" = true ∧
        jsIncludes (jsToLower "title heading") "page" = true) ∧
    generateContextualAnswer "title heading" emptyPageContext =
      "The page title is \"" ++ emptyPageContext.title ++
        "\". This gives us insight into the main topic or purpose of the page." :=
  ⟨by decide, by decide, by decide,
   c9_title_priority "title heading" emptyPageContext (by decide) (by decide)
     (by decide)⟩

set_option maxRecDepth 8192 in
/-- Claim C4: the Fallback Answerer is total and non-trivial — for every
question and every snapshot (the empty one included) it returns a
non-empty string: every branch of `generateContextualAnswer` opens with a
non-empty literal. -/
theorem c4_fallback_total : ∀ (q : String) (c : PageContext),
    0 < (generateContextualAnswer q c).length := by
  intro q c
  simp only [generateContextualAnswer]
  by_cases h1 : (jsIncludes (jsToLower q) "what" &&
      jsIncludes (jsToLower q) "page") = true
  · rw [if_pos h1]
    repeat apply len_pos_append_left
    decide
  rw [if_neg h1]
  by_cases h2 : jsIncludes (jsToLower q) "title" = true
  · rw [if_pos h2]
    repeat apply len_pos_append_left
    decide
  rw [if_neg h2]
  by_cases h3 : (jsIncludes (jsToLower q) "url" ||
      jsIncludes (jsToLower q) "link") = true
  · rw [if_pos h3]
    repeat apply len_pos_append_left
    decide
  rw [if_neg h3]
  by_cases h4 : (jsIncludes (jsToLower q) "heading" ||
      jsIncludes (jsToLower q) "section") = true
  · rw [if_pos h4]
    by_cases h4b : c.headings.length > 0
    · rw [if_pos h4b]
      repeat apply len_pos_append_left
      decide
    · rw [if_neg h4b]
      decide
  rw [if_neg h4]
  by_cases h5 : (jsIncludes (jsToLower q) "button" ||
      jsIncludes (jsToLower q) "click" || jsIncludes (jsToLower q) "action") = true
  · rw [if_pos h5]
    by_cases h5b : c.actions.length > 0
    · rw [if_pos h5b]
      repeat apply len_pos_append_left
      decide
    · rw [if_neg h5b]
      decide
  rw [if_neg h5]
  by_cases h6 : (c.selected_text != "" &&
      (jsIncludes (jsToLower q) "selected" ||
        jsIncludes (jsToLower q) "highlight")) = true
  · rw [if_pos h6]
    repeat apply len_pos_append_left
    decide
  rw [if_neg h6]
  by_cases h7 : (jsIncludes (jsToLower q) "summary" ||
      jsIncludes (jsToLower q) "about") = true
  · rw [if_pos h7]
    repeat apply len_pos_append_left
    decide
  rw [if_neg h7]
  by_cases h8 : (jsIncludes (jsToLower q) "help" ||
      jsIncludes (jsToLower q) "how") = true
  · rw [if_pos h8]
    by_cases h8b : (decide (c.actions.length > 0) &&
        decide ((c.actions.filter fun a =>
          jsIncludes (jsToLower a.text) "help" ||
          jsIncludes (jsToLower a.text) "support" ||
          jsIncludes (jsToLower a.text) "guide" ||
          jsIncludes (jsToLower a.text) "tutorial").length > 0)) = true
    · rw [if_pos h8b]
      repeat apply len_pos_append_left
      decide
    · rw [if_neg h8b]
      repeat apply len_pos_append_left
      decide
  rw [if_neg h8]
  repeat apply len_pos_append_left
  decide

end ArkAngel
